import Mathlib

/-
  Verification of the oko-press-rss program (src/oko-glitch.go).
  The Go data types and functions are embedded as Lean definitions;
  the theorems below settle the specified properties against them.
-/

namespace OkoPress

/- Upstream data model: the Node struct (one article record) with its
   nested anonymous structs for seo_fields and featured_image. -/

structure SeoFields where
  slug : String
deriving DecidableEq, Repr

structure NodeImage where
  url : String
deriving DecidableEq, Repr

structure Node where
  id : String
  title : String
  published : String
  seoFields : SeoFields
  image : NodeImage
deriving DecidableEq, Repr

structure JsonData where
  nodes : List Node
deriving DecidableEq, Repr

structure JsonResponse where
  data : JsonData
deriving DecidableEq, Repr

/- RSS output data model: RssItem and RssFeed structs. -/

structure RssGuid where
  content : String
  isPermaLink : Bool
deriving DecidableEq, Repr

structure RssEnclosure where
  url : String
  length : Int
  type : String
deriving DecidableEq, Repr

structure RssItem where
  title : String
  link : String
  guid : RssGuid
  pubDate : String
  enclosure : RssEnclosure
deriving DecidableEq, Repr

structure AtomLink where
  rel : String
  href : String
deriving DecidableEq, Repr

structure RssChannel where
  atomLink : AtomLink
  title : String
  link : String
  desc : String
  item : List RssItem
deriving DecidableEq, Repr

structure RssFeed where
  version : String
  atom : String
  channel : RssChannel
deriving DecidableEq, Repr

/- Configuration. The Go field Interval is a duration that the program
   multiplies by time.Second, i.e. it counts seconds; modelled as Nat. -/

structure Config where
  url : String
  thumbnailCompression : String
  interval : Nat
deriving DecidableEq, Repr

/- Go time values, restricted to the calendar fields the program uses.
   Parsing happens in the UTC location and formatting only prints
   day, month, year, hour, minute and the fixed +0000 offset, so the
   broken-down representation is faithful. -/

structure GoTime where
  year : Nat
  month : Nat
  day : Nat
  hour : Nat
  minute : Nat
  second : Nat
deriving DecidableEq, Repr

/-- The zero value of time.Time: January 1, year 1, 00:00:00 UTC. -/
def zeroGoTime : GoTime :=
  { year := 1, month := 1, day := 1, hour := 0, minute := 0, second := 0 }

def digitVal (c : Char) : Nat := c.toNat - 48

/-- Go getnum: one numeric field of a time layout. With fixed = true it
    demands exactly two digits; otherwise one digit, or two when the
    second character is also a digit. -/
def getnum2 (fixed : Bool) : List Char → Option (Nat × List Char)
  | c1 :: c2 :: rest =>
    if c1.isDigit then
      if c2.isDigit then some (digitVal c1 * 10 + digitVal c2, rest)
      else if fixed then none else some (digitVal c1, c2 :: rest)
    else none
  | [c1] => if c1.isDigit ∧ fixed = false then some (digitVal c1, []) else none
  | [] => none

/-- Go stdLongYear: exactly four digits. -/
def getYear4 : List Char → Option (Nat × List Char)
  | a :: b :: c :: d :: rest =>
    if a.isDigit ∧ b.isDigit ∧ c.isDigit ∧ d.isDigit then
      some (((digitVal a * 10 + digitVal b) * 10 + digitVal c) * 10 + digitVal d, rest)
    else none
  | _ => none

/-- Matching one literal character of the layout. -/
def expectChar (c : Char) : List Char → Option (List Char)
  | x :: rest => if x = c then some rest else none
  | [] => none

def isLeap (y : Nat) : Bool := y % 4 = 0 ∧ (y % 100 ≠ 0 ∨ y % 400 = 0)

def daysIn (m y : Nat) : Nat :=
  if m = 2 then (if isLeap y then 29 else 28)
  else if m = 4 ∨ m = 6 ∨ m = 9 ∨ m = 11 then 30
  else 31

/-- Go time.ParseInLocation with layout 2006-01-02T15:04:05 in UTC.
    Returns none exactly when the Go parse returns an error: wrong
    shape, trailing text, or an out-of-range field. -/
def parseOkoTime (s : String) : Option GoTime := do
  let (year, r1) ← getYear4 s.toList
  let r2 ← expectChar '-' r1
  let (month, r3) ← getnum2 true r2
  let r4 ← expectChar '-' r3
  let (day, r5) ← getnum2 true r4
  let r6 ← expectChar 'T' r5
  let (hour, r7) ← getnum2 false r6
  let r8 ← expectChar ':' r7
  let (minute, r9) ← getnum2 true r8
  let r10 ← expectChar ':' r9
  let (second, r11) ← getnum2 true r10
  if r11 = [] ∧ hour < 24 ∧ minute < 60 ∧ second < 60
      ∧ 1 ≤ month ∧ month ≤ 12 ∧ 1 ≤ day ∧ day ≤ daysIn month year then
    some { year := year, month := month, day := day,
           hour := hour, minute := minute, second := second }
  else
    none

def pad2 (n : Nat) : String := if n < 10 then "0" ++ toString n else toString n

def pad4 (n : Nat) : String :=
  if n < 10 then "000" ++ toString n
  else if n < 100 then "00" ++ toString n
  else if n < 1000 then "0" ++ toString n
  else toString n

def monthName : Nat → String
  | 1 => "Jan" | 2 => "Feb" | 3 => "Mar" | 4 => "Apr"
  | 5 => "May" | 6 => "Jun" | 7 => "Jul" | 8 => "Aug"
  | 9 => "Sep" | 10 => "Oct" | 11 => "Nov" | 12 => "Dec"
  | _ => ""

/-- Go Format with layout 02 Jan 2006 15:04 -0700 on a UTC time:
    zero-padded day, month name, four-digit year, zero-padded hour and
    minute, and the +0000 offset of UTC. -/
def formatRssTime (t : GoTime) : String :=
  pad2 t.day ++ " " ++ monthName t.month ++ " " ++ pad4 t.year ++ " "
    ++ pad2 t.hour ++ ":" ++ pad2 t.minute ++ " +0000"

/-- The Record Mapper JsonToRssItem. The Go code ignores the parse
    error of the publish timestamp, so a failed parse leaves the zero
    time value, exactly as Option.getD does here. The global config is
    passed explicitly. -/
def JsonToRssItem (cfg : Config) (node : Node) : RssItem :=
  let okoTimeFormat := (parseOkoTime node.published).getD zeroGoTime
  let rssTimeFormat := formatRssTime okoTimeFormat
  let link := "https://oko.press/" ++ node.seoFields.slug
  let imageUrl := cfg.thumbnailCompression ++ node.image.url
  { title := node.title
    link := link
    guid := { content := node.id, isPermaLink := false }
    pubDate := rssTimeFormat
    enclosure := { url := imageUrl, length := 0, type := "image/jpeg" } }

/- JSON values, as produced by a successful scan of the response body.
   A body that is not syntactically valid JSON is represented below by
   an Except.error at the UpstreamResult level. -/

inductive Json where
  | null : Json
  | bool : Bool → Json
  | num : Int → Json
  | str : String → Json
  | arr : List Json → Json
  | obj : List (String × Json) → Json

/-- Key matching of encoding/json: a JSON object key selects a struct
    field when it equals the field tag up to ASCII case folding. All
    tags here are lower-case, so folding the key suffices. -/
def keyMatches (k target : String) : Bool :=
  k.toList.map Char.toLower == target.toList

/-- The decode loop over the members of a JSON object, in document
    order; a later duplicate key overwrites an earlier one, and the
    first type error aborts with that error, as in encoding/json. -/
def decodeFieldsWith {α : Type} (step : α → String → Json → Except String α) :
    α → List (String × Json) → Except String α
  | cur, [] => Except.ok cur
  | cur, (k, v) :: rest =>
    match step cur k v with
    | Except.error e => Except.error e
    | Except.ok next => decodeFieldsWith step next rest

/-- Unmarshalling a JSON value into a Go string field: null leaves the
    current value, a string replaces it, anything else is a type error. -/
def decodeStringField (cur : String) : Json → Except String String
  | Json.null => Except.ok cur
  | Json.str s => Except.ok s
  | _ => Except.error "json: cannot unmarshal value into Go string field"

def zeroNode : Node :=
  { id := "", title := "", published := "",
    seoFields := { slug := "" }, image := { url := "" } }

def setSeoField (cur : SeoFields) (k : String) (v : Json) : Except String SeoFields :=
  if keyMatches k "slug" then
    match decodeStringField cur.slug v with
    | Except.error e => Except.error e
    | Except.ok s => Except.ok { slug := s }
  else Except.ok cur

def decodeSeoFields (cur : SeoFields) : Json → Except String SeoFields
  | Json.null => Except.ok cur
  | Json.obj fields => decodeFieldsWith setSeoField cur fields
  | _ => Except.error "json: cannot unmarshal value into Go struct seo_fields"

def setImageField (cur : NodeImage) (k : String) (v : Json) : Except String NodeImage :=
  if keyMatches k "original_url" then
    match decodeStringField cur.url v with
    | Except.error e => Except.error e
    | Except.ok s => Except.ok { url := s }
  else Except.ok cur

def decodeNodeImage (cur : NodeImage) : Json → Except String NodeImage
  | Json.null => Except.ok cur
  | Json.obj fields => decodeFieldsWith setImageField cur fields
  | _ => Except.error "json: cannot unmarshal value into Go struct featured_image"

def setNodeField (cur : Node) (k : String) (v : Json) : Except String Node :=
  if keyMatches k "id" then
    match decodeStringField cur.id v with
    | Except.error e => Except.error e
    | Except.ok s => Except.ok { cur with id := s }
  else if keyMatches k "title" then
    match decodeStringField cur.title v with
    | Except.error e => Except.error e
    | Except.ok s => Except.ok { cur with title := s }
  else if keyMatches k "publish_at" then
    match decodeStringField cur.published v with
    | Except.error e => Except.error e
    | Except.ok s => Except.ok { cur with published := s }
  else if keyMatches k "seo_fields" then
    match decodeSeoFields cur.seoFields v with
    | Except.error e => Except.error e
    | Except.ok sf => Except.ok { cur with seoFields := sf }
  else if keyMatches k "featured_image" then
    match decodeNodeImage cur.image v with
    | Except.error e => Except.error e
    | Except.ok im => Except.ok { cur with image := im }
  else Except.ok cur

def decodeNode (cur : Node) : Json → Except String Node
  | Json.null => Except.ok cur
  | Json.obj fields => decodeFieldsWith setNodeField cur fields
  | _ => Except.error "json: cannot unmarshal value into Go struct Node"

/-- Unmarshalling a JSON array into the nodes slice: each element is
    decoded into a fresh zero Node. -/
def decodeNodeList : List Json → Except String (List Node)
  | [] => Except.ok []
  | j :: rest =>
    match decodeNode zeroNode j with
    | Except.error e => Except.error e
    | Except.ok n =>
      match decodeNodeList rest with
      | Except.error e => Except.error e
      | Except.ok ns => Except.ok (n :: ns)

def setDataField (cur : JsonData) (k : String) (v : Json) : Except String JsonData :=
  if keyMatches k "nodes" then
    match v with
    | Json.null => Except.ok cur
    | Json.arr xs =>
      match decodeNodeList xs with
      | Except.error e => Except.error e
      | Except.ok ns => Except.ok { nodes := ns }
    | _ => Except.error "json: cannot unmarshal value into Go slice nodes"
  else Except.ok cur

def decodeJsonData (cur : JsonData) : Json → Except String JsonData
  | Json.null => Except.ok cur
  | Json.obj fields => decodeFieldsWith setDataField cur fields
  | _ => Except.error "json: cannot unmarshal value into Go struct data"

def setResponseField (cur : JsonResponse) (k : String) (v : Json) : Except String JsonResponse :=
  if keyMatches k "data" then
    match decodeJsonData cur.data v with
    | Except.error e => Except.error e
    | Except.ok d => Except.ok { data := d }
  else Except.ok cur

/-- Decoding the upstream body into the JsonResponse struct, starting
    from the zero value, as parser.Decode(&jsonBody) does. Missing
    members keep their zero values; a non-object top level (other than
    null) is a type error. -/
def decodeJsonResponse : Json → Except String JsonResponse
  | Json.null => Except.ok { data := { nodes := [] } }
  | Json.obj fields => decodeFieldsWith setResponseField { data := { nodes := [] } } fields
  | _ => Except.error "json: cannot unmarshal value into Go struct JsonResponse"

/- Feed building (lines 122-141 of the source). -/

/-- The item loop of OkoPressRss: append one mapped item per node, in
    response order. -/
def buildItemsLoop (cfg : Config) : List Node → List RssItem → List RssItem
  | [], acc => acc
  | n :: rest, acc => buildItemsLoop cfg rest (acc ++ [JsonToRssItem cfg n])

def okoDescription : String :=
  "OKO.press to portal informacyjny, który publikuje najnowsze wiadomości z różnych dziedzin: polityki, gospodarki, sportu, kultury, nauki i nauki. Znajdziesz tu także wywiady, analizy, sondaże, podcasty i multimedia."

/-- The RssFeed struct as filled in by OkoPressRss: fixed channel
    metadata, the atom link href copied from the channel link, and one
    item per upstream node. -/
def buildRssFeed (cfg : Config) (nodes : List Node) : RssFeed :=
  let channelLink := "https://oko.press"
  { version := "2.0"
    atom := "http://www.w3.org/2005/Atom"
    channel :=
      { atomLink := { rel := "self", href := channelLink }
        title := "OKO.press"
        link := channelLink
        desc := okoDescription
        item := buildItemsLoop cfg nodes [] } }

/- XML serialization: xml.MarshalIndent(rss, "", " "). -/

/-- The character escaping of encoding/xml EscapeText, applied to both
    character data and attribute values. -/
def escChar (c : Char) : String :=
  if c = '&' then "&amp;"
  else if c = '<' then "&lt;"
  else if c = '>' then "&gt;"
  else if c = Char.ofNat 39 then "&#39;"
  else if c = Char.ofNat 34 then "&#34;"
  else if c = Char.ofNat 9 then "&#x9;"
  else if c = Char.ofNat 10 then "&#xA;"
  else if c = Char.ofNat 13 then "&#xD;"
  else String.singleton c

def escapeXml (s : String) : String := String.join (s.toList.map escChar)

def xmlAttr (name value : String) : String :=
  " " ++ name ++ "=" ++ String.singleton (Char.ofNat 34)
    ++ escapeXml value ++ String.singleton (Char.ofNat 34)

/-- One serialized item element, as a list of indented lines. -/
def marshalItem (i : RssItem) : List String :=
  ["  <item>",
   "   <title>" ++ escapeXml i.title ++ "</title>",
   "   <link>" ++ escapeXml i.link ++ "</link>",
   "   <guid" ++ xmlAttr "isPermaLink" (if i.guid.isPermaLink then "true" else "false")
     ++ ">" ++ escapeXml i.guid.content ++ "</guid>",
   "   <pubDate>" ++ escapeXml i.pubDate ++ "</pubDate>",
   "   <enclosure" ++ xmlAttr "url" i.enclosure.url
     ++ xmlAttr "length" (toString i.enclosure.length)
     ++ xmlAttr "type" i.enclosure.type ++ "></enclosure>",
   "  </item>"]

/-- xml.MarshalIndent of the RssFeed struct with empty prefix and a
    one-space indent: a deterministic function of the struct, with no
    trailing newline. -/
def marshalIndentRss (rss : RssFeed) : String :=
  String.intercalate "\n"
    (["<rss" ++ xmlAttr "version" rss.version ++ xmlAttr "xmlns:atom" rss.atom ++ ">",
      " <channel>",
      "  <atom:link" ++ xmlAttr "rel" rss.channel.atomLink.rel
        ++ xmlAttr "href" rss.channel.atomLink.href ++ "></atom:link>",
      "  <title>" ++ escapeXml rss.channel.title ++ "</title>",
      "  <link>" ++ escapeXml rss.channel.link ++ "</link>",
      "  <description>" ++ escapeXml rss.channel.desc ++ "</description>"]
     ++ (rss.channel.item.map marshalItem).flatten
     ++ [" </channel>", "</rss>"])

/-- Lines 149-152: the serialized feed text, prefixed with the
    last-updated comment holding the build time, formatted with the
    same layout as item publish dates. -/
def renderFeed (rss : RssFeed) (now : GoTime) : String :=
  "<!-- Last updated: " ++ formatRssTime now ++ " -->\n" ++ marshalIndentRss rss

/- The fetch orchestrator OkoPressRss and the process lifecycle. -/

inductive FetchError where
  | networkError : String → FetchError
  | badStatus : Nat → FetchError
  | decodeError : String → FetchError
deriving DecidableEq, Repr

/-- Outcome of the single http.Get: either a transport error or a
    response carrying a status code and a body; the body is the scanned
    JSON value, or an error when the bytes are not valid JSON. -/
inductive UpstreamResult where
  | netError : String → UpstreamResult
  | response : Nat → Except String Json → UpstreamResult

/-- OkoPressRss (lines 99-156): panic on a transport error, on any
    status other than 200 OK, or on a body that fails to decode;
    otherwise build the feed struct from the decoded nodes, marshal it
    and prefix the last-updated comment. Panics are modelled as
    Except.error, the wall clock as the explicit argument now. -/
def OkoPressRss (cfg : Config) (up : UpstreamResult) (now : GoTime) :
    Except FetchError String :=
  match up with
  | UpstreamResult.netError msg => Except.error (FetchError.networkError msg)
  | UpstreamResult.response status body =>
    if status ≠ 200 then Except.error (FetchError.badStatus status)
    else
      match body with
      | Except.error msg => Except.error (FetchError.decodeError msg)
      | Except.ok j =>
        match decodeJsonResponse j with
        | Except.error msg => Except.error (FetchError.decodeError msg)
        | Except.ok jsonBody =>
          Except.ok (renderFeed (buildRssFeed cfg jsonBody.data.nodes) now)

inductive ProcessOutcome where
  | fatal : FetchError → ProcessOutcome
  | serving : String → ProcessOutcome
deriving DecidableEq, Repr

/-- The tail of main after the configuration is loaded: feed =
    OkoPressRss(); a panic there terminates the process before cron or
    serveHttp start, otherwise the server is started on the built feed. -/
def runMain (cfg : Config) (up : UpstreamResult) (now : GoTime) : ProcessOutcome :=
  match OkoPressRss cfg up now with
  | Except.error e => ProcessOutcome.fatal e
  | Except.ok f => ProcessOutcome.serving f

def isFatal : ProcessOutcome → Bool
  | ProcessOutcome.fatal _ => true
  | ProcessOutcome.serving _ => false

structure HttpRequest where
  method : String
  path : String
deriving DecidableEq, Repr

structure HttpResponse where
  status : Nat
  contentType : String
  body : String
deriving DecidableEq, Repr

/-- The handler of serveHttp, registered at pattern / which matches
    every path and method: it sets Content-Type application/xml, the
    status stays the implicit 200, and fmt.Fprintln writes the feed
    followed by a newline. -/
def serveHttp (feed : String) (_req : HttpRequest) : HttpResponse :=
  { status := 200, contentType := "application/xml", body := feed ++ "\n" }

inductive CronState where
  | sleeping : CronState
  | exited : Nat → CronState
deriving DecidableEq, Repr

/-- The cron task as a function of elapsed time in seconds: it sleeps
    for config.Interval seconds and then calls os.Exit(0). It reads
    nothing but the interval, so HTTP traffic cannot influence or reset
    it. -/
def cron (interval : Nat) (elapsed : Nat) : CronState :=
  if elapsed < interval then CronState.sleeping else CronState.exited 0

/- Concrete inputs used by the end-to-end scenario and the witnesses. -/

/-- The upstream payload of the end-to-end scenario: one record with
    id 42. -/
def payload42 : Json :=
  Json.obj [("data", Json.obj [("nodes", Json.arr
    [Json.obj [("id", Json.str "42"),
               ("title", Json.str "Test"),
               ("publish_at", Json.str "2023-05-01T10:00:00"),
               ("seo_fields", Json.obj [("slug", Json.str "test-article")]),
               ("featured_image", Json.obj [("original_url", Json.str "/img.jpg")])]])])]

def cfg42 : Config :=
  { url := "https://oko.press/api", thumbnailCompression := "https://proxy/", interval := 5 }

/-- The upstream record decoded from payload42. -/
def node42 : Node :=
  { id := "42", title := "Test", published := "2023-05-01T10:00:00",
    seoFields := { slug := "test-article" }, image := { url := "/img.jpg" } }

/-- A fetch outcome that the spec calls failed: transport error, a
    status other than 200 OK, or a body that does not decode into the
    JsonResponse struct. -/
def fetchFails : UpstreamResult → Bool
  | UpstreamResult.netError _ => true
  | UpstreamResult.response status body =>
    status != 200 ||
      (match body with
       | Except.error _ => true
       | Except.ok j =>
         match decodeJsonResponse j with
         | Except.error _ => true
         | Except.ok _ => false)

/-- A response body that decodes into the JsonResponse struct with an
    empty node list: on such a body parser.Decode succeeds and the
    item loop runs zero times. -/
def decodesToEmpty (j : Json) : Bool :=
  match decodeJsonResponse j with
  | Except.ok b => b.data.nodes.isEmpty
  | Except.error _ => false

/-- A record whose publish timestamp does not match the expected
    layout, used as the C4 witness input. -/
def nodeBadDate : Node :=
  { id := "1", title := "t", published := "May 1, 2023",
    seoFields := { slug := "s" }, image := { url := "/i.jpg" } }

/-- The build instant used in closed end-to-end statements. -/
def buildTime : GoTime :=
  { year := 2023, month := 5, day := 1, hour := 12, minute := 0, second := 0 }

/-- The item loop equals a map over the nodes in order. -/
theorem buildItemsLoop_eq (cfg : Config) (nodes : List Node) (acc : List RssItem) :
    buildItemsLoop cfg nodes acc = acc ++ nodes.map (JsonToRssItem cfg) := by
  induction nodes generalizing acc with
  | nil => simp [buildItemsLoop]
  | cons n rest ih => simp [buildItemsLoop, ih]

/-- Decoding an object none of whose keys matches the data field
    leaves the JsonResponse value unchanged. -/
theorem decodeFields_no_data (fields : List (String × Json)) (r : JsonResponse)
    (h : ∀ kv ∈ fields, keyMatches kv.1 "data" = false) :
    decodeFieldsWith setResponseField r fields = Except.ok r := by
  induction fields generalizing r with
  | nil => rfl
  | cons kv rest ih =>
    have hk : keyMatches kv.1 "data" = false := h kv (List.mem_cons_self _ _)
    have hrest : ∀ kv2 ∈ rest, keyMatches kv2.1 "data" = false :=
      fun kv2 hm => h kv2 (List.mem_cons_of_mem _ hm)
    cases kv with
    | mk k v =>
      simp only [decodeFieldsWith, setResponseField, hk, Bool.false_eq_true, if_false]
      exact ih r hrest

/-- C1: with the single-record payload (id 42, title Test, publish_at
    2023-05-01T10:00:00, slug test-article, image /img.jpg) and the
    thumbnail prefix https://proxy/, the feed document holds exactly one
    item with link https://oko.press/test-article, guid 42 with
    isPermaLink false, enclosure url https://proxy//img.jpg and pubDate
    01 May 2023 10:00 +0000, and that document is what the process
    serves. -/
theorem c1_end_to_end :
    decodeJsonResponse payload42 = Except.ok { data := { nodes := [node42] } }
    ∧ (buildRssFeed cfg42 [node42]).channel.item =
        [{ title := "Test", link := "https://oko.press/test-article",
           guid := { content := "42", isPermaLink := false },
           pubDate := "01 May 2023 10:00 +0000",
           enclosure := { url := "https://proxy//img.jpg", length := 0,
                          type := "image/jpeg" } }]
    ∧ runMain cfg42 (UpstreamResult.response 200 (Except.ok payload42)) buildTime
        = ProcessOutcome.serving (renderFeed (buildRssFeed cfg42 [node42]) buildTime) :=
  ⟨rfl, rfl, rfl⟩

/-- C2: for every upstream record and every configured image-proxy
    prefix, the mapped item has link base concatenated with the slug,
    enclosure url prefix concatenated with the raw image url, enclosure
    length 0 and type image/jpeg, and guid content equal to the raw id
    with the permalink flag false, whatever the id looks like. -/
theorem c2_record_mapper_fields (cfg : Config) (node : Node) :
    (JsonToRssItem cfg node).link = "https://oko.press/" ++ node.seoFields.slug
    ∧ (JsonToRssItem cfg node).enclosure.url = cfg.thumbnailCompression ++ node.image.url
    ∧ (JsonToRssItem cfg node).enclosure.length = 0
    ∧ (JsonToRssItem cfg node).enclosure.type = "image/jpeg"
    ∧ (JsonToRssItem cfg node).guid.content = node.id
    ∧ (JsonToRssItem cfg node).guid.isPermaLink = false :=
  ⟨rfl, rfl, rfl, rfl, rfl, rfl⟩

/-- C3 counterexample: the handler writes the feed with Fprintln, which
    appends a newline, so the body is not byte-equal to the cached feed
    text. -/
theorem c3_counterexample :
    ¬ ((serveHttp "<rss></rss>" { method := "GET", path := "/" }).body = "<rss></rss>") := by
  decide

/-- C3 amended: every request, whatever its path or method, gets status
    200, Content-Type application/xml, and a body equal to the cached
    feed text followed by one trailing newline added by Fprintln. -/
theorem c3_amended (feed : String) (req : HttpRequest) :
    serveHttp feed req =
      { status := 200, contentType := "application/xml", body := feed ++ "\n" } :=
  rfl

/-- C4: when the publish timestamp fails to parse, the mapper still
    returns an item (the error is discarded) and its pubDate is the
    formatted zero time, 01 Jan 0001 00:00 +0000. -/
theorem c4_zero_pubdate (cfg : Config) (node : Node)
    (h : parseOkoTime node.published = none) :
    (JsonToRssItem cfg node).pubDate = "01 Jan 0001 00:00 +0000" := by
  show formatRssTime ((parseOkoTime node.published).getD zeroGoTime) = _
  rw [h]
  decide

/-- Witness for C4 at the concrete timestamp May 1, 2023. -/
theorem c4_witness :
    parseOkoTime nodeBadDate.published = none
    ∧ (JsonToRssItem cfg42 nodeBadDate).pubDate = "01 Jan 0001 00:00 +0000" :=
  ⟨by decide, c4_zero_pubdate cfg42 nodeBadDate (by decide)⟩

/-- C5: a transport error, a status other than 200, or a body that
    fails to decode makes the process fatal before the server starts:
    the outcome is never serving. -/
theorem c5_fatal_before_serve (cfg : Config) (up : UpstreamResult) (now : GoTime)
    (h : fetchFails up = true) : isFatal (runMain cfg up now) = true := by
  cases up with
  | netError msg => rfl
  | response status body =>
    by_cases hs : status = 200
    · subst hs
      cases body with
      | error msg => rfl
      | ok j =>
        cases hd : decodeJsonResponse j with
        | error msg => simp [runMain, OkoPressRss, hd, isFatal]
        | ok b => simp [fetchFails, hd] at h
    · simp [runMain, OkoPressRss, hs, isFatal]

/-- Witness for C5 at a concrete transport error. -/
theorem c5_witness :
    fetchFails (UpstreamResult.netError "connection refused") = true
    ∧ isFatal (runMain cfg42 (UpstreamResult.netError "connection refused") zeroGoTime) = true :=
  ⟨rfl, c5_fatal_before_serve cfg42 (UpstreamResult.netError "connection refused") zeroGoTime rfl⟩

/-- C6: the countdown task exits the process with code 0 exactly once
    the configured interval has elapsed, and since it reads nothing but
    the interval it cannot be reset by traffic. -/
theorem c6_countdown_exit (interval elapsed : Nat) :
    cron interval elapsed = CronState.exited 0 ↔ interval ≤ elapsed := by
  constructor
  · intro h
    by_contra hlt
    push_neg at hlt
    simp [cron, hlt] at h
  · intro h
    have hnot : ¬ elapsed < interval := by omega
    simp [cron, hnot]

/-- C7: the feed document has exactly one item per upstream record, in
    upstream response order, with no reordering. -/
theorem c7_item_order (cfg : Config) (nodes : List Node) :
    (buildRssFeed cfg nodes).channel.item = nodes.map (JsonToRssItem cfg) := by
  show buildItemsLoop cfg nodes [] = _
  simp [buildItemsLoop_eq]

/-- C8: rendering the same document at two instants yields the same
    serialized bytes after a single leading comment line, which records
    the build time formatted with the same function as item publish
    dates. -/
theorem c8_serialize_deterministic (rss : RssFeed) (t1 t2 : GoTime)
    (cfg : Config) (node : Node) :
    renderFeed rss t1
        = "<!-- Last updated: " ++ formatRssTime t1 ++ " -->\n" ++ marshalIndentRss rss
    ∧ renderFeed rss t2
        = "<!-- Last updated: " ++ formatRssTime t2 ++ " -->\n" ++ marshalIndentRss rss
    ∧ (JsonToRssItem cfg node).pubDate
        = formatRssTime ((parseOkoTime node.published).getD zeroGoTime) :=
  ⟨rfl, rfl, rfl⟩

/-- C9: every built feed document carries an atom link element marked
    rel self whose href is the channel link. -/
theorem c9_atom_self_link (cfg : Config) (nodes : List Node) :
    (buildRssFeed cfg nodes).channel.atomLink.rel = "self"
    ∧ (buildRssFeed cfg nodes).channel.atomLink.href
        = (buildRssFeed cfg nodes).channel.link :=
  ⟨rfl, rfl⟩

/-- C10 counterexample: the body given by the string hello is valid
    JSON and lacks a data.nodes member, yet decoding fails and the
    process is fatal instead of serving an empty feed. -/
theorem c10_counterexample :
    isFatal (runMain cfg42
      (UpstreamResult.response 200 (Except.ok (Json.str "hello"))) zeroGoTime) = true :=
  rfl

/-- Any JSON object none of whose keys matches the data field decodes
    to the empty node list. -/
theorem objWithoutData_decodesToEmpty (fields : List (String × Json))
    (h : ∀ kv ∈ fields, keyMatches kv.1 "data" = false) :
    decodesToEmpty (Json.obj fields) = true := by
  have hdec := decodeFields_no_data fields { data := { nodes := [] } } h
  simp [decodesToEmpty, decodeJsonResponse, hdec]

/-- C10 amended: whenever the upstream body decodes into the
    JsonResponse struct with an empty node list, the process does not
    fail: the feed document has zero items and the server serves that
    empty feed. The covered bodies include JSON null, the empty object,
    an object with only unrelated members, and objects whose data or
    data.nodes member is null or whose nodes array is empty. -/
theorem c10_amended (cfg : Config) (now : GoTime) (body : Json)
    (h : decodesToEmpty body = true) :
    (buildRssFeed cfg []).channel.item = []
    ∧ runMain cfg (UpstreamResult.response 200 (Except.ok body)) now
        = ProcessOutcome.serving (renderFeed (buildRssFeed cfg []) now)
    ∧ decodesToEmpty Json.null = true
    ∧ decodesToEmpty (Json.obj []) = true
    ∧ decodesToEmpty (Json.obj [("other", Json.num 1)]) = true
    ∧ decodesToEmpty (Json.obj [("data", Json.null)]) = true
    ∧ decodesToEmpty (Json.obj [("data", Json.obj [])]) = true
    ∧ decodesToEmpty (Json.obj [("data", Json.obj [("nodes", Json.null)])]) = true
    ∧ decodesToEmpty (Json.obj [("data", Json.obj [("nodes", Json.arr [])])]) = true := by
  refine ⟨rfl, ?_, rfl, rfl, rfl, rfl, rfl, rfl, rfl⟩
  simp only [decodesToEmpty] at h
  cases hd : decodeJsonResponse body with
  | error e => rw [hd] at h; simp at h
  | ok b =>
    obtain ⟨⟨ns⟩⟩ := b
    rw [hd] at h
    cases ns with
    | cons x xs => simp at h
    | nil => simp [runMain, OkoPressRss, hd]

/-- Witness for the amended C10 at the concrete body whose data.nodes
    member is present and holds the empty array. -/
theorem c10_witness :
    (buildRssFeed cfg42 []).channel.item = []
    ∧ runMain cfg42
        (UpstreamResult.response 200
          (Except.ok (Json.obj [("data", Json.obj [("nodes", Json.arr [])])]))) zeroGoTime
        = ProcessOutcome.serving (renderFeed (buildRssFeed cfg42 []) zeroGoTime)
    ∧ decodesToEmpty Json.null = true
    ∧ decodesToEmpty (Json.obj []) = true
    ∧ decodesToEmpty (Json.obj [("other", Json.num 1)]) = true
    ∧ decodesToEmpty (Json.obj [("data", Json.null)]) = true
    ∧ decodesToEmpty (Json.obj [("data", Json.obj [])]) = true
    ∧ decodesToEmpty (Json.obj [("data", Json.obj [("nodes", Json.null)])]) = true
    ∧ decodesToEmpty (Json.obj [("data", Json.obj [("nodes", Json.arr [])])]) = true :=
  c10_amended cfg42 zeroGoTime (Json.obj [("data", Json.obj [("nodes", Json.arr [])])]) rfl

end OkoPress
